import Mathlib

/-!
Shallow embedding of the HaircutPilot salon-booking repository.

Client side (client/src/components/booking-form.tsx):
the slot generator, the derived duration/price totals, the step logic of
the multi-step form, and the deposit computation done at submission.

Server side (server storage and routes file): the appointment table
operations (update, cancel), the soft deletes of services and stylists,
and the metrics aggregation of getSalonMetrics.

Times are minutes. A calendar date is a day index; the instant at
hour h, minute m of day d is 1440 * d + 60 * h + m. Decimal amounts are
rationals.
-/

namespace HaircutPilot

/-! ## Client: booking-form.tsx -/

/-- Two-digit decimal rendering of a number below 100, as produced by the
HH and mm fields of the date formatting used for slots. -/
def pad2 (n : Nat) : String :=
  if n < 10 then String.mk ['0', Nat.digitChar n]
  else String.mk [Nat.digitChar (n / 10), Nat.digitChar (n % 10)]

/-- The HH:mm rendering of an absolute minute instant, from
format(slotStart, 'HH:mm'). -/
def fmtHM (t : Nat) : String :=
  pad2 (t % 1440 / 60) ++ ":" ++ pad2 (t % 60)

/-- The two nested if conditions of the slot loop in generateTimeSlots:
slotEnd.getHours() <= endHour (with endHour = 18), and
slotStart > now + 120 minutes. -/
def keepSlot (duration now slotStart : Nat) : Bool :=
  decide ((slotStart + duration) % 1440 / 60 ≤ 18) &&
  decide (now + 120 < slotStart)

/-- The grid scanned by generateTimeSlots: hours 9 to 17, minutes 0 and
30, in loop order. -/
def slotStarts (day : Nat) : List Nat :=
  ((List.range 9).map (fun k => 9 + k)).flatMap
    (fun hour => [0, 30].map (fun minute => 1440 * day + 60 * hour + minute))

/-- The start instants kept by generateTimeSlots before formatting. -/
def slotCandidates (day duration now : Nat) : List Nat :=
  (slotStarts day).filter (keepSlot duration now)

/-- generateTimeSlots(date, duration): scans the 30-minute grid of the
fixed 09:00 to 18:00 window, keeps the starts passing the two checks of
keepSlot, and renders each kept start as HH:mm. -/
def generateTimeSlots (day duration now : Nat) : List String :=
  (slotCandidates day duration now).map fmtHM

/-- The availableSlots state: the effect hook recomputes it through
generateTimeSlots only when a date is chosen and totalDuration > 0;
otherwise it keeps its initial empty value. -/
def availableSlots (day duration now : Nat) : List String :=
  if 0 < duration then generateTimeSlots day duration now else []

/-- handleNextStep: on step 1 an empty service selection sets a form
error and returns without advancing; otherwise the step advances, capped
at step 4. -/
def handleNextStep (currentStep : Nat) (selectedServices : List String) : Nat :=
  if currentStep = 1 ∧ selectedServices = [] then currentStep
  else if currentStep < 4 then currentStep + 1 else currentStep

/-- The fields of a catalog service read by the booking form. -/
structure Service where
  id : String
  name : String
  durationMinutes : Nat
  price : ℚ
  requiresDeposit : Bool
deriving DecidableEq

/-- The totalDuration reduce: for each selected id, the duration of the
first matching service, or 0 when the id resolves to nothing. -/
def totalDuration (services : List Service) (selected : List String) : Nat :=
  selected.foldl
    (fun total sid =>
      total + (((services.find? (fun s => s.id == sid)).map
        (fun s => s.durationMinutes)).getD 0))
    0

/-- The totalPrice reduce: for each selected id, the price of the first
matching service, or 0 when the id resolves to nothing. -/
def totalPrice (services : List Service) (selected : List String) : ℚ :=
  selected.foldl
    (fun total sid =>
      total + (((services.find? (fun s => s.id == sid)).map
        (fun s => s.price)).getD 0))
    0

/-- The requiresDeposit flag computed in handleFormSubmit: some selected
service has its deposit flag set. -/
def bookingRequiresDeposit (services : List Service) (selected : List String) : Bool :=
  selected.any (fun sid =>
    ((services.find? (fun s => s.id == sid)).map
      (fun s => s.requiresDeposit)).getD false)

/-- Math.round: nearest integer, halves rounded up. -/
def jsRound (q : ℚ) : ℤ := ⌊q + 1 / 2⌋

/-- The depositAmount of handleFormSubmit:
Math.round(totalPrice * 0.2 * 100) / 100 when a selected service
requires a deposit, else 0. -/
def depositAmount (services : List Service) (selected : List String) : ℚ :=
  if bookingRequiresDeposit services selected then
    (jsRound (totalPrice services selected * (0.2 : ℚ) * 100) : ℚ) / 100
  else 0

/-- Rounding to two decimal places, as written in the specification:
round(x, 2). -/
def round2 (q : ℚ) : ℚ := (⌊q * 100 + 1 / 2⌋ : ℚ) / 100

/-! ## Server: storage rows -/

/-- A row of the services table. The schedule-free catalog fields match
the schema; jsonb payloads irrelevant to the claims are kept as opaque
strings. -/
structure ServiceRow where
  id : String
  salonId : String
  name : String
  description : Option String
  durationMinutes : Nat
  price : ℚ
  tags : List String
  requiresDeposit : Bool
  bufferBefore : Nat
  bufferAfter : Nat
  processingTime : Nat
  isActive : Bool
  createdAt : Nat
deriving DecidableEq

/-- A row of the stylists table. -/
structure StylistRow where
  id : String
  salonId : String
  firstName : String
  lastName : String
  email : Option String
  phone : Option String
  photoUrl : Option String
  specialties : List String
  schedule : Option String
  vacations : Option String
  isActive : Bool
  createdAt : Nat
deriving DecidableEq

/-- A row of the appointments table. -/
structure Appointment where
  id : String
  salonId : String
  clientId : String
  stylistId : Option String
  serviceIds : List String
  startTime : Nat
  endTime : Nat
  status : String
  channel : String
  totalAmount : ℚ
  depositAmount : Option ℚ
  paymentStatus : String
  stripePaymentIntentId : Option String
  notes : Option String
  cancelledAt : Option Nat
  cancellationReason : Option String
  createdAt : Nat
  updatedAt : Nat
deriving DecidableEq

/-- A row of the reviews table. -/
structure Review where
  id : String
  salonId : String
  clientId : String
  appointmentId : Option String
  stylistId : Option String
  rating : Nat
  comment : Option String
  isPublic : Bool
  response : Option String
  createdAt : Nat
deriving DecidableEq

/-- The tables the verified operations touch. -/
structure Db where
  services : List ServiceRow
  stylists : List StylistRow
  appointments : List Appointment
  reviews : List Review
deriving DecidableEq

/-! ## Server: storage operations -/

/-- deleteService: UPDATE services SET is_active = false WHERE id = id.
Only the services table is touched and only the isActive column is set. -/
def deleteService (db : Db) (id : String) : Db :=
  { db with
    services := db.services.map
      (fun s => if s.id == id then { s with isActive := false } else s) }

/-- deleteStylist: UPDATE stylists SET is_active = false WHERE id = id. -/
def deleteStylist (db : Db) (id : String) : Db :=
  { db with
    stylists := db.stylists.map
      (fun s => if s.id == id then { s with isActive := false } else s) }

/-- The column values written by cancelAppointment on a matching row:
status cancelled, cancelledAt and updatedAt stamped with the current
time, cancellationReason overwritten. -/
def cancelRow (a : Appointment) (reason : String) (now : Nat) : Appointment :=
  { a with
    status := "cancelled"
    cancelledAt := some now
    cancellationReason := some reason
    updatedAt := now }

/-- cancelAppointment: the UPDATE applies cancelRow to the rows matching
the id. -/
def cancelAppointment (db : List Appointment) (id reason : String) (now : Nat) :
    List Appointment :=
  db.map (fun a => if a.id == id then cancelRow a reason now else a)

/-- The partial field merge accepted by updateAppointment; the PATCH
route forwards the request body unchecked, so every updatable column may
arrive. The representative mutable columns are modelled; the remaining
columns behave identically. -/
structure AppointmentPatch where
  status : Option String
  startTime : Option Nat
  endTime : Option Nat
  totalAmount : Option ℚ
  paymentStatus : Option String
  notes : Option String
deriving DecidableEq

/-- The merge done by updateAppointment on a matching row: each provided
field overwrites, updatedAt is always refreshed. -/
def applyPatch (a : Appointment) (p : AppointmentPatch) (now : Nat) : Appointment :=
  { a with
    status := p.status.getD a.status
    startTime := p.startTime.getD a.startTime
    endTime := p.endTime.getD a.endTime
    totalAmount := p.totalAmount.getD a.totalAmount
    paymentStatus := p.paymentStatus.getD a.paymentStatus
    notes := (p.notes.map some).getD a.notes
    updatedAt := now }

/-- updateAppointment: the UPDATE applies the merge to the rows matching
the id. -/
def updateAppointment (db : List Appointment) (id : String)
    (p : AppointmentPatch) (now : Nat) : List Appointment :=
  db.map (fun a => if a.id == id then applyPatch a p now else a)

/-! ## Server: getSalonMetrics -/

/-- The range query of getSalonMetrics: rows of the salon whose
startTime lies in the inclusive range. -/
def appointmentsInRange (db : Db) (salonId : String) (startDate endDate : Nat) :
    List Appointment :=
  db.appointments.filter (fun a =>
    a.salonId == salonId &&
    decide (startDate ≤ a.startTime) && decide (a.startTime ≤ endDate))

/-- serviceMap.get(serviceId) with the fallback string: the name of the
matching catalog row, the later row winning on a duplicate id as in a
Map built from an array of pairs. -/
def serviceNameOf (salonServices : List ServiceRow) (sid : String) : String :=
  ((salonServices.reverse.find? (fun s => s.id == sid)).map
    (fun s => s.name)).getD "Unknown Service"

/-- Map.set(name, (Map.get(name) || 0) + 1): increment the entry with
the given key, or append a fresh entry with count 1. -/
def bumpCount (m : List (String × Nat)) (name : String) : List (String × Nat) :=
  if m.any (fun p => p.1 == name) then
    m.map (fun p => if p.1 == name then (p.1, p.2 + 1) else p)
  else m ++ [(name, 1)]

/-- The serviceCount accumulation: every service id of every appointment
of the range, in iteration order, bumps the bucket of its current name. -/
def serviceCount (salonServices : List ServiceRow) (apts : List Appointment) :
    List (String × Nat) :=
  apts.foldl
    (fun m a => a.serviceIds.foldl
      (fun m sid => bumpCount m (serviceNameOf salonServices sid)) m)
    []

/-- The sort comparator (a, b) => b.count - a.count reads: a may stay
before b exactly when the count of a is at least the count of b. -/
def byCountDesc (a b : String × Nat) : Bool := decide (b.2 ≤ a.2)

/-- Stable insertion step for the descending sort: the inserted entry
stems from earlier in the original array than the already placed ones,
so it passes every entry with a strictly larger count and lands in front
of the first entry with an equal or smaller count. -/
def insertByCount (x : String × Nat) : List (String × Nat) → List (String × Nat)
  | [] => [x]
  | y :: ys => if byCountDesc x y then x :: y :: ys else y :: insertByCount x ys

/-- The stable sort by descending count required of Array.sort with the
comparator (a, b) => b.count - a.count. -/
def sortByCountDesc : List (String × Nat) → List (String × Nat)
  | [] => []
  | x :: xs => insertByCount x (sortByCountDesc xs)

/-- The topServices computation: histogram entries sorted by descending
count with the stable sort, truncated to the first five. -/
def topServicesOf (salonServices : List ServiceRow) (apts : List Appointment) :
    List (String × Nat) :=
  (sortByCountDesc (serviceCount salonServices apts)).take 5

/-- The record returned by getSalonMetrics. -/
structure SalonMetrics where
  totalAppointments : Nat
  totalRevenue : ℚ
  noShows : Nat
  completedAppointments : Nat
  averageRating : ℚ
  topServices : List (String × Nat)
deriving DecidableEq

/-- getSalonMetrics: counts and revenue over the ranged rows, the review
average over every review of the salon with a zero guard, and the top
services histogram. -/
def getSalonMetrics (db : Db) (salonId : String) (startDate endDate : Nat) :
    SalonMetrics :=
  let rng := appointmentsInRange db salonId startDate endDate
  let salonReviews := db.reviews.filter (fun r => r.salonId == salonId)
  let salonServices := db.services.filter (fun s => s.salonId == salonId)
  { totalAppointments := rng.length
    totalRevenue :=
      (rng.filter (fun a => a.status == "completed")).foldl
        (fun sum a => sum + a.totalAmount) 0
    noShows := (rng.filter (fun a => a.status == "no_show")).length
    completedAppointments := (rng.filter (fun a => a.status == "completed")).length
    averageRating :=
      if 0 < salonReviews.length then
        (salonReviews.foldl (fun sum r => sum + (r.rating : ℚ)) 0) /
          (salonReviews.length : ℚ)
      else 0
    topServices := topServicesOf salonServices rng }

/-- A status reassignment of every appointment row, the rest of the
database untouched; used to state that a computation ignores statuses. -/
def withStatuses (db : Db) (f : Appointment → String) : Db :=
  { db with appointments := db.appointments.map (fun a => { a with status := f a }) }

/-- Invariant tying a histogram association list to the list of names it
has absorbed: every stored entry carries the exact occurrence count of
its key, and every name seen so far owns an entry. -/
def histInv (names : List String) (m : List (String × Nat)) : Prop :=
  (∀ p ∈ m, p.2 = names.count p.1) ∧
  (∀ x : String, 0 < names.count x → m.any (fun p => p.1 == x) = true)

/-- Row-wise effect of deleteService: the row keeps every column except
isActive, which is cleared exactly on the targeted id. -/
def serviceFrame (id : String) (r r' : ServiceRow) : Prop :=
  r'.id = r.id ∧ r'.salonId = r.salonId ∧ r'.name = r.name ∧
  r'.description = r.description ∧ r'.durationMinutes = r.durationMinutes ∧
  r'.price = r.price ∧ r'.tags = r.tags ∧
  r'.requiresDeposit = r.requiresDeposit ∧ r'.bufferBefore = r.bufferBefore ∧
  r'.bufferAfter = r.bufferAfter ∧ r'.processingTime = r.processingTime ∧
  r'.createdAt = r.createdAt ∧
  r'.isActive = (if r.id = id then false else r.isActive)

/-- Row-wise effect of deleteStylist: the row keeps every column except
isActive, which is cleared exactly on the targeted id. -/
def stylistFrame (id : String) (r r' : StylistRow) : Prop :=
  r'.id = r.id ∧ r'.salonId = r.salonId ∧ r'.firstName = r.firstName ∧
  r'.lastName = r.lastName ∧ r'.email = r.email ∧ r'.phone = r.phone ∧
  r'.photoUrl = r.photoUrl ∧ r'.specialties = r.specialties ∧
  r'.schedule = r.schedule ∧ r'.vacations = r.vacations ∧
  r'.createdAt = r.createdAt ∧
  r'.isActive = (if r.id = id then false else r.isActive)

/-! ## Concrete rows for scenarios -/

/-- An appointment of salon s with the given id, status, amount, start
instant and service list; the remaining columns take fixed defaults. -/
def mkApt (id status : String) (amount : ℚ) (t : Nat) (sids : List String) :
    Appointment :=
  ⟨id, "s", "c", none, sids, t, t + 60, status, "form", amount, none,
    "pending", none, none, none, none, 0, 0⟩

/-- A catalog row of salon s with the given id and name. -/
def mkSvc (id name : String) : ServiceRow :=
  ⟨id, "s", name, none, 30, 25, [], false, 0, 0, 0, true, 0⟩

/-- A five-star review of salon s. -/
def reviewFive : Review :=
  ⟨"rv1", "s", "c", none, none, 5, none, true, none, 0⟩

/-- The revenue scenario: three completed appointments of 50, 30 and 20
and two cancelled appointments of 40, all inside the queried range. -/
def revenueDb : Db :=
  ⟨[], [],
    [mkApt "a1" "completed" 50 100 ["sv1"],
     mkApt "a2" "completed" 30 200 ["sv1"],
     mkApt "a3" "completed" 20 300 ["sv2"],
     mkApt "a4" "cancelled" 40 400 ["sv2"],
     mkApt "a5" "cancelled" 40 500 ["sv2"]],
    []⟩

/-- The histogram scenario: service Cut booked three times (once in a
cancelled appointment), service Color once. -/
def histDb : Db :=
  ⟨[mkSvc "sA" "Cut", mkSvc "sB" "Color"], [],
    [mkApt "b1" "completed" 25 100 ["sA"],
     mkApt "b2" "cancelled" 25 200 ["sA"],
     mkApt "b3" "no_show" 25 300 ["sA", "sB"]],
    []⟩

/-- A zero-price service whose deposit flag is set. -/
def freeDepositService : Service := ⟨"svc0", "Cut", 30, 0, true⟩

/-- A priced service whose deposit flag is set. -/
def pricedDepositService : Service := ⟨"svc1", "Color", 45, 50, true⟩

/-- A completed appointment, used against the cancel operation. -/
def aptCompleted : Appointment := mkApt "a1" "completed" 50 100 ["sv1"]

/-- A pending appointment, used for the double-cancel scenario. -/
def aptPending : Appointment := mkApt "a1" "pending" 50 100 ["sv1"]

/-- A patch carrying only a status write. -/
def statusPatch (s : String) : AppointmentPatch := ⟨some s, none, none, none, none, none⟩

/-! ## Helper lemmas -/

theorem foldl_add_totalAmount (l : List Appointment) (init : ℚ) :
    l.foldl (fun sum a => sum + a.totalAmount) init =
      init + (l.map (fun a => a.totalAmount)).sum := by
  induction l generalizing init with
  | nil => simp
  | cons a t ih => simp [ih, add_assoc]

theorem foldl_add_rating (l : List Review) (init : ℚ) :
    l.foldl (fun sum r => sum + (r.rating : ℚ)) init =
      init + (l.map (fun r => (r.rating : ℚ))).sum := by
  induction l generalizing init with
  | nil => simp
  | cons r t ih => simp [ih, add_assoc]

/-! ## Claims -/

/-- Claim C1: the claim states that every slot s produced by
generateTimeSlots with duration d satisfies 09:00 <= s and
s + d <= 18:00. The code checks only the hour component of the slot end
(slotEnd.getHours() <= endHour), contradicting its own inline comment
that the slot must end before closing time: with a 60-minute duration
the slot 17:30 is produced although it ends at 18:30, past closing.
Day index 1 with now = 0 makes the date a future day, so the lead-time
filter keeps every grid slot. -/
theorem C1_generateTimeSlots_end_overflow :
    "17:30" ∈ generateTimeSlots 1 60 0 ∧
    (1440 * 1 + 17 * 60 + 30) ∈ slotCandidates 1 60 0 ∧
    18 * 60 < 17 * 60 + 30 + 60 := by decide

/-- Claim C2, counterexample: with date day 0, duration 60 and
now = 07:00 of day 0, the slot 09:00 starts exactly at now + 120
minutes, and the code excludes it because its lead-time comparison is
strict; the first returned slot is 09:30, not 09:00 as claimed. -/
theorem C2_opening_slot_excluded :
    "09:00" ∉ generateTimeSlots 0 60 (7 * 60) ∧
    (generateTimeSlots 0 60 (7 * 60)).head? = some "09:30" := by decide

/-- Claim C2, amended: every kept slot start lies strictly after
now + 120 minutes (hence at or after now + 120 minutes), and in the
scenario of the claim the first returned slot is 09:30. -/
theorem C2_lead_time_strict :
    (∀ day duration now t, t ∈ slotCandidates day duration now →
      now + 120 < t ∧ now + 120 ≤ t) ∧
    (generateTimeSlots 0 60 (7 * 60)).head? = some "09:30" := by
  refine ⟨?_, by decide⟩
  intro day duration now t ht
  have h := (List.mem_filter.mp ht).2
  simp only [keepSlot, Bool.and_eq_true, decide_eq_true_eq] at h
  exact ⟨h.2, Nat.le_of_lt h.2⟩

/-- Claim C2, witness: the 09:00 slot of day 1 is kept when now is
07:00 of day 0, and the amended bound holds for it. -/
theorem C2_lead_time_strict_witness :
    (1440 * 1 + 9 * 60) ∈ slotCandidates 1 60 (7 * 60) ∧
    7 * 60 + 120 < 1440 * 1 + 9 * 60 :=
  ⟨by decide, (C2_lead_time_strict.1 1 60 (7 * 60) (1440 * 1 + 9 * 60) (by decide)).1⟩

/-- Claim C3: an empty service selection aggregates to duration zero,
the slot state stays empty because the effect hook only regenerates it
for a positive total duration, and handleNextStep refuses to advance
past step 1 on an empty selection. -/
theorem C3_zero_duration_blocks :
    ∀ (day now : Nat) (services : List Service),
      totalDuration services [] = 0 ∧
      availableSlots day 0 now = [] ∧
      handleNextStep 1 [] = 1 := by
  intro day now services
  exact ⟨rfl, rfl, rfl⟩

/-- Claim C4, counterexample: a selected zero-priced service with the
deposit flag set makes the claimed equivalence fail: some selected
service requires a deposit, yet the computed depositAmount is 0. -/
theorem C4_deposit_zero_price :
    bookingRequiresDeposit [freeDepositService] ["svc0"] = true ∧
    depositAmount [freeDepositService] ["svc0"] = 0 := by
  refine ⟨by decide, ?_⟩
  norm_num [depositAmount, bookingRequiresDeposit, totalPrice, jsRound,
    freeDepositService]

/-- Claim C4, amended: depositAmount equals round(totalAmount * 0.2, 2)
when some selected service requires a deposit and 0 otherwise; it is
nonzero exactly when some selected service requires a deposit and the
rounded fifth of the total is itself nonzero. A 50-priced deposit
service produces the nonzero deposit 10. -/
theorem C4_deposit_rounding :
    ∀ (services : List Service) (selected : List String),
      (depositAmount services selected =
        if bookingRequiresDeposit services selected then
          round2 (totalPrice services selected * (0.2 : ℚ)) else 0) ∧
      (depositAmount services selected ≠ 0 ↔
        bookingRequiresDeposit services selected = true ∧
        round2 (totalPrice services selected * (0.2 : ℚ)) ≠ 0) ∧
      depositAmount [pricedDepositService] ["svc1"] = 10 := by
  intro services selected
  have key : depositAmount services selected =
      if bookingRequiresDeposit services selected then
        round2 (totalPrice services selected * (0.2 : ℚ)) else 0 := by
    by_cases h : bookingRequiresDeposit services selected <;>
      simp [depositAmount, round2, jsRound, h]
  refine ⟨key, ?_, ?_⟩
  · rw [key]
    by_cases h : bookingRequiresDeposit services selected <;> simp [h]
  · norm_num [depositAmount, bookingRequiresDeposit, totalPrice, jsRound,
      pricedDepositService]

/-- Claim C5: totalRevenue sums totalAmount over exactly the ranged
appointments whose status is completed, and the scenario of three
completed appointments of 50, 30, 20 next to two cancelled ones of 40
yields 100. -/
theorem C5_completed_revenue :
    (∀ (db : Db) (salonId : String) (d1 d2 : Nat),
      (getSalonMetrics db salonId d1 d2).totalRevenue =
        (((appointmentsInRange db salonId d1 d2).filter
          (fun a => a.status == "completed")).map (fun a => a.totalAmount)).sum) ∧
    (getSalonMetrics revenueDb "s" 0 1000).totalRevenue = 100 := by
  refine ⟨?_, ?_⟩
  · intro db salonId d1 d2
    simp [getSalonMetrics, foldl_add_totalAmount]
  · have h : appointmentsInRange revenueDb "s" 0 1000 =
        [mkApt "a1" "completed" 50 100 ["sv1"],
         mkApt "a2" "completed" 30 200 ["sv1"],
         mkApt "a3" "completed" 20 300 ["sv2"],
         mkApt "a4" "cancelled" 40 400 ["sv2"],
         mkApt "a5" "cancelled" 40 500 ["sv2"]] := by decide
    norm_num [getSalonMetrics, h, mkApt, List.filter_cons,
      (by decide : ("completed" == "completed") = true),
      (by decide : ("cancelled" == "completed") = false)]

/-- Claim C6, counterexample: cancelling the same appointment at time 10
and again at time 20 re-stamps cancelledAt from 10 to 20 and changes the
stored record, so the second cancel is not a no-op and cancelledAt is
not set once. -/
theorem C6_cancel_restamps :
    (cancelAppointment [aptPending] "a1" "r1" 10).map (fun a => a.cancelledAt) =
      [some 10] ∧
    (cancelAppointment (cancelAppointment [aptPending] "a1" "r1" 10) "a1" "r2" 20).map
      (fun a => a.cancelledAt) = [some 20] ∧
    cancelAppointment (cancelAppointment [aptPending] "a1" "r1" 10) "a1" "r2" 20 ≠
      cancelAppointment [aptPending] "a1" "r1" 10 := by decide

/-- Claim C6, amended: cancelling twice leaves status cancelled, but the
second call overwrites cancelledAt, cancellationReason and updatedAt:
the state after two cancels is the state after the second cancel alone,
so the operation is a no-op on an already cancelled row only when the
timestamp and reason repeat exactly. -/
theorem C6_cancel_last_write_wins :
    ∀ (db : List Appointment) (id r1 r2 : String) (t1 t2 : Nat),
      cancelAppointment (cancelAppointment db id r1 t1) id r2 t2 =
        cancelAppointment db id r2 t2 ∧
      cancelAppointment (cancelAppointment db id r1 t1) id r1 t1 =
        cancelAppointment db id r1 t1 := by
  have key : ∀ (db : List Appointment) (id ra rb : String) (ta tb : Nat),
      cancelAppointment (cancelAppointment db id ra ta) id rb tb =
        cancelAppointment db id rb tb := by
    intro db id ra rb ta tb
    simp only [cancelAppointment, List.map_map]
    congr 1
    funext a
    by_cases h : a.id = id <;> simp [cancelRow, h]
  intro db id r1 r2 t1 t2
  exact ⟨key db id r1 r2 t1 t2, key db id r1 r1 t1 t1⟩

/-- Claim C7, counterexample: a salon with zero appointments in range
but one five-star review gets averageRating 5, not 0: the review
average ignores the appointment range entirely. -/
theorem C7_rating_ignores_range :
    (getSalonMetrics ⟨[], [], [], [reviewFive]⟩ "s" 0 1000).totalAppointments = 0 ∧
    (getSalonMetrics ⟨[], [], [], [reviewFive]⟩ "s" 0 1000).averageRating = 5 := by
  refine ⟨by decide, ?_⟩
  norm_num [getSalonMetrics, reviewFive, List.filter, List.foldl]

/-- Claim C7, amended: a range with zero appointments yields zero
counts, zero revenue and an empty topServices list; averageRating is
the all-time review average of the salon (the range is ignored), is 0
(never undefined) when the salon has no reviews, and under the schema
invariant that every rating is positive (ratings lie in 1..5) it is 0
exactly when the salon has no reviews at all. -/
theorem C7_empty_range_metrics :
    ∀ (db : Db) (salonId : String) (d1 d2 : Nat),
      appointmentsInRange db salonId d1 d2 = [] →
        (getSalonMetrics db salonId d1 d2).totalAppointments = 0 ∧
        (getSalonMetrics db salonId d1 d2).totalRevenue = 0 ∧
        (getSalonMetrics db salonId d1 d2).noShows = 0 ∧
        (getSalonMetrics db salonId d1 d2).completedAppointments = 0 ∧
        (getSalonMetrics db salonId d1 d2).topServices = [] ∧
        (db.reviews.filter (fun r => r.salonId == salonId) = [] →
          (getSalonMetrics db salonId d1 d2).averageRating = 0) ∧
        ((∀ r ∈ db.reviews, 0 < r.rating) →
          ((getSalonMetrics db salonId d1 d2).averageRating = 0 ↔
            db.reviews.filter (fun r => r.salonId == salonId) = [])) := by
  intro db salonId d1 d2 h
  refine ⟨?_, ?_, ?_, ?_, ?_, ?_, ?_⟩
  · simp [getSalonMetrics, h]
  · simp [getSalonMetrics, h]
  · simp [getSalonMetrics, h]
  · simp [getSalonMetrics, h]
  · simp [getSalonMetrics, h, topServicesOf, serviceCount, sortByCountDesc]
  · intro h2
    simp [getSalonMetrics, h2]
  · intro hpos
    constructor
    · intro h0
      by_contra hne
      have hlen : 0 < (db.reviews.filter (fun r => r.salonId == salonId)).length :=
        List.length_pos.mpr hne
      have havg : (getSalonMetrics db salonId d1 d2).averageRating =
          ((db.reviews.filter (fun r => r.salonId == salonId)).foldl
            (fun sum r => sum + (r.rating : ℚ)) 0) /
          (((db.reviews.filter (fun r => r.salonId == salonId)).length : ℚ)) := by
        simp [getSalonMetrics, hlen]
      have hsumpos :
          0 < ((db.reviews.filter (fun r => r.salonId == salonId)).map
            (fun r => (r.rating : ℚ))).sum := by
        apply List.sum_pos
        · intro x hx
          obtain ⟨r, hr, rfl⟩ := List.mem_map.mp hx
          have hr2 : 0 < r.rating := hpos r (List.mem_of_mem_filter hr)
          exact_mod_cast hr2
        · intro hmap
          exact hne (by simpa using hmap)
      have hgt : 0 < (getSalonMetrics db salonId d1 d2).averageRating := by
        rw [havg, foldl_add_rating, zero_add]
        exact div_pos hsumpos (by exact_mod_cast hlen)
      exact hgt.ne' h0
    · intro h2
      simp [getSalonMetrics, h2]

/-- Claim C7, witness: the amended statement applied to the empty
database, the review positivity hypothesis holding vacuously. -/
theorem C7_empty_range_metrics_witness :
    (getSalonMetrics ⟨[], [], [], []⟩ "s" 0 10).totalAppointments = 0 ∧
    (getSalonMetrics ⟨[], [], [], []⟩ "s" 0 10).topServices = [] ∧
    (getSalonMetrics ⟨[], [], [], []⟩ "s" 0 10).averageRating = 0 := by
  have h := C7_empty_range_metrics ⟨[], [], [], []⟩ "s" 0 10 rfl
  exact ⟨h.1, h.2.2.2.2.1, (h.2.2.2.2.2.2 (by simp)).mpr rfl⟩

/-- Claim C8, counterexample: the appointment is completed, a terminal
state, yet the cancel operation rewrites it to cancelled and the update
operation accepts a caller-supplied move back to pending: both leave
the claimed state machine. -/
theorem C8_cancel_from_completed :
    aptCompleted.status = "completed" ∧
    (cancelAppointment [aptCompleted] "a1" "late" 10).map (fun a => a.status) =
      ["cancelled"] ∧
    (updateAppointment [aptCompleted] "a1" (statusPatch "pending") 10).map
      (fun a => a.status) = ["pending"] := by decide

/-- Claim C8, amended: the server enforces no transition restriction at
all. Whatever the current status of the row matching the id,
cancelAppointment rewrites it to cancelled, and updateAppointment
rewrites it to any caller-supplied status; the claimed state machine is
only what the client screens offer. -/
theorem C8_no_transition_guard :
    ∀ (db : List Appointment) (a : Appointment) (id reason s : String) (t : Nat),
      a ∈ db → a.id = id →
        cancelRow a reason t ∈ cancelAppointment db id reason t ∧
        (cancelRow a reason t).status = "cancelled" ∧
        applyPatch a (statusPatch s) t ∈ updateAppointment db id (statusPatch s) t ∧
        (applyPatch a (statusPatch s) t).status = s := by
  intro db a id reason s t ha hid
  have hb : (a.id == id) = true := by simp [hid]
  refine ⟨?_, rfl, ?_, rfl⟩
  · simp only [cancelAppointment]
    exact List.mem_map.mpr ⟨a, ha, by simp [hb]⟩
  · simp only [updateAppointment]
    exact List.mem_map.mpr ⟨a, ha, by simp [hb]⟩

/-- Claim C8, witness: the amended statement applied to a completed
appointment, a terminal state by the claim. -/
theorem C8_no_transition_guard_witness :
    cancelRow aptCompleted "late" 10 ∈ cancelAppointment [aptCompleted] "a1" "late" 10 ∧
    (cancelRow aptCompleted "late" 10).status = "cancelled" ∧
    applyPatch aptCompleted (statusPatch "pending") 10 ∈
      updateAppointment [aptCompleted] "a1" (statusPatch "pending") 10 ∧
    (applyPatch aptCompleted (statusPatch "pending") 10).status = "pending" :=
  C8_no_transition_guard [aptCompleted] aptCompleted "a1" "late" "pending" 10
    (by simp) rfl

/-- Claim C9: the delete operations on services and stylists only clear
the isActive flag of the targeted row: the other tables are untouched,
every row survives with every other column unchanged, and rows with a
different id are fully unchanged; no hard delete occurs. -/
theorem C9_soft_delete_frame :
    ∀ (db : Db) (id : String),
      (deleteService db id).stylists = db.stylists ∧
      (deleteService db id).appointments = db.appointments ∧
      (deleteService db id).reviews = db.reviews ∧
      (deleteStylist db id).services = db.services ∧
      (deleteStylist db id).appointments = db.appointments ∧
      (deleteStylist db id).reviews = db.reviews ∧
      List.Forall₂ (serviceFrame id) db.services (deleteService db id).services ∧
      List.Forall₂ (stylistFrame id) db.stylists (deleteStylist db id).stylists := by
  intro db id
  refine ⟨rfl, rfl, rfl, rfl, rfl, rfl, ?_, ?_⟩
  · show List.Forall₂ (serviceFrame id) db.services
      (db.services.map (fun s => if s.id == id then { s with isActive := false } else s))
    induction db.services with
    | nil => exact List.Forall₂.nil
    | cons a t ih =>
        refine List.Forall₂.cons ?_ ih
        by_cases h : a.id = id <;> simp [serviceFrame, h]
  · show List.Forall₂ (stylistFrame id) db.stylists
      (db.stylists.map (fun s => if s.id == id then { s with isActive := false } else s))
    induction db.stylists with
    | nil => exact List.Forall₂.nil
    | cons a t ih =>
        refine List.Forall₂.cons ?_ ih
        by_cases h : a.id = id <;> simp [stylistFrame, h]

theorem bumpCount_inv {names : List String} {m : List (String × Nat)} (x : String)
    (h : histInv names m) : histInv (names ++ [x]) (bumpCount m x) := by
  obtain ⟨h1, h2⟩ := h
  constructor
  · intro p hp
    by_cases hx : m.any (fun q => q.1 == x) = true
    · rw [bumpCount, if_pos hx] at hp
      obtain ⟨q, hq, hpq⟩ := List.mem_map.mp hp
      by_cases hqx : q.1 = x
      · rw [if_pos (by simp [hqx])] at hpq
        subst hpq
        simp [hqx, List.count_append, h1 q hq]
      · rw [if_neg (by simp [hqx])] at hpq
        subst hpq
        simp [List.count_append, hqx, h1 q hq]
    · rw [bumpCount, if_neg hx] at hp
      rcases List.mem_append.mp hp with hm | hs
      · have hne : p.1 ≠ x := by
          intro e
          exact hx (List.any_eq_true.mpr ⟨p, hm, by simp [e]⟩)
        simp [List.count_append, hne, h1 p hm]
      · have hp1 : p = (x, 1) := by simpa using hs
        subst hp1
        have hz : names.count x = 0 := by
          by_contra hnz
          exact hx (h2 x (Nat.pos_of_ne_zero hnz))
        simp [List.count_append, hz]
  · intro y hy
    by_cases hx : m.any (fun q => q.1 == x) = true
    · rw [bumpCount, if_pos hx]
      by_cases hyx : y = x
      · subst hyx
        rw [List.any_map]
        obtain ⟨q, hq, hqx⟩ := List.any_eq_true.mp hx
        refine List.any_eq_true.mpr ⟨q, hq, ?_⟩
        by_cases h : q.1 = y <;> simp_all
      · have hcy : 0 < names.count y := by
          simpa [List.count_append, hyx] using hy
        obtain ⟨q, hq, hqy⟩ := List.any_eq_true.mp (h2 y hcy)
        rw [List.any_map]
        refine List.any_eq_true.mpr ⟨q, hq, ?_⟩
        by_cases h : q.1 = x <;> simp_all
    · rw [bumpCount, if_neg hx]
      by_cases hyx : y = x
      · subst hyx
        exact List.any_eq_true.mpr ⟨(y, 1), by simp, by simp⟩
      · have hcy : 0 < names.count y := by
          simpa [List.count_append, hyx] using hy
        obtain ⟨q, hq, hqy⟩ := List.any_eq_true.mp (h2 y hcy)
        exact List.any_eq_true.mpr ⟨q, List.mem_append_left _ hq, hqy⟩

theorem foldl_bumpCount_inv (rest : List String) :
    ∀ (names : List String) (m : List (String × Nat)),
      histInv names m → histInv (names ++ rest) (rest.foldl bumpCount m) := by
  induction rest with
  | nil => intro names m h; simpa using h
  | cons x rest ih =>
      intro names m h
      have h2 := ih (names ++ [x]) (bumpCount m x) (bumpCount_inv x h)
      simpa [List.append_assoc] using h2

theorem foldl_serviceIds (ss : List ServiceRow) :
    ∀ (apts : List Appointment) (init : List (String × Nat)),
      apts.foldl (fun m a => a.serviceIds.foldl
        (fun m sid => bumpCount m (serviceNameOf ss sid)) m) init =
      (apts.flatMap (fun a => a.serviceIds)).foldl
        (fun m sid => bumpCount m (serviceNameOf ss sid)) init := by
  intro apts
  induction apts with
  | nil => intro init; rfl
  | cons a t ih =>
      intro init
      rw [List.foldl_cons, List.flatMap_cons, List.foldl_append]
      exact ih _

theorem serviceCount_entry (ss : List ServiceRow) (apts : List Appointment) :
    ∀ p ∈ serviceCount ss apts,
      p.2 = ((apts.flatMap (fun a => a.serviceIds)).map (serviceNameOf ss)).count p.1 := by
  intro p hp
  rw [serviceCount, foldl_serviceIds ss apts] at hp
  have h := foldl_bumpCount_inv
    ((apts.flatMap (fun a => a.serviceIds)).map (serviceNameOf ss)) [] []
    ⟨by simp, by simp⟩
  have h2 := h.1
  rw [List.foldl_map] at h2
  simpa using h2 p hp

theorem mem_insertByCount {p x : String × Nat} :
    ∀ {l : List (String × Nat)}, p ∈ insertByCount x l ↔ p = x ∨ p ∈ l := by
  intro l
  induction l with
  | nil => simp [insertByCount]
  | cons y ys ih =>
      by_cases h : byCountDesc x y
      · simp [insertByCount, h]
      · simp only [insertByCount, if_neg h, List.mem_cons, ih]
        tauto

theorem sorted_insertByCount {x : String × Nat} {l : List (String × Nat)}
    (h : List.Pairwise (fun a b : String × Nat => b.2 ≤ a.2) l) :
    List.Pairwise (fun a b : String × Nat => b.2 ≤ a.2) (insertByCount x l) := by
  induction l with
  | nil => simp [insertByCount]
  | cons y ys ih =>
      obtain ⟨hy, hys⟩ := List.pairwise_cons.mp h
      rw [insertByCount]
      by_cases hc : byCountDesc x y
      · rw [if_pos hc]
        have hxy : y.2 ≤ x.2 := by simpa [byCountDesc] using hc
        refine List.pairwise_cons.mpr ⟨?_, h⟩
        intro z hz
        rcases List.mem_cons.mp hz with rfl | hz2
        · exact hxy
        · exact le_trans (hy z hz2) hxy
      · rw [if_neg hc]
        have hyx : x.2 ≤ y.2 := by
          have hlt : ¬ y.2 ≤ x.2 := by simpa [byCountDesc] using hc
          omega
        refine List.pairwise_cons.mpr ⟨?_, ih hys⟩
        intro z hz
        rcases mem_insertByCount.mp hz with rfl | hz2
        · exact hyx
        · exact hy z hz2

theorem sorted_sortByCountDesc :
    ∀ (l : List (String × Nat)),
      List.Pairwise (fun a b : String × Nat => b.2 ≤ a.2) (sortByCountDesc l) := by
  intro l
  induction l with
  | nil => simp [sortByCountDesc]
  | cons x xs ih =>
      rw [sortByCountDesc]
      exact sorted_insertByCount ih

theorem mem_sortByCountDesc {p : String × Nat} :
    ∀ {l : List (String × Nat)}, p ∈ sortByCountDesc l ↔ p ∈ l := by
  intro l
  induction l with
  | nil => simp [sortByCountDesc]
  | cons x xs ih => simp [sortByCountDesc, mem_insertByCount, ih]

theorem topServicesOf_length (ss : List ServiceRow) (apts : List Appointment) :
    (topServicesOf ss apts).length ≤ 5 := by
  simp only [topServicesOf, List.length_take]
  omega

theorem topServicesOf_sorted (ss : List ServiceRow) (apts : List Appointment) :
    List.Pairwise (fun a b : String × Nat => b.2 ≤ a.2) (topServicesOf ss apts) := by
  have h := sorted_sortByCountDesc (serviceCount ss apts)
  exact h.sublist (List.take_sublist 5 _)

theorem topServicesOf_counts (ss : List ServiceRow) (apts : List Appointment) :
    ∀ p ∈ topServicesOf ss apts,
      p.2 = ((apts.flatMap (fun a => a.serviceIds)).map (serviceNameOf ss)).count p.1 := by
  intro p hp
  have hp2 : p ∈ sortByCountDesc (serviceCount ss apts) :=
    (List.take_sublist 5 _).subset hp
  exact serviceCount_entry ss apts p (mem_sortByCountDesc.mp hp2)

theorem getSalonMetrics_topServices (db : Db) (salonId : String) (d1 d2 : Nat) :
    (getSalonMetrics db salonId d1 d2).topServices =
      topServicesOf (db.services.filter (fun s => s.salonId == salonId))
        (appointmentsInRange db salonId d1 d2) := rfl

theorem appointmentsInRange_withStatuses (db : Db) (f : Appointment → String)
    (salonId : String) (d1 d2 : Nat) :
    appointmentsInRange (withStatuses db f) salonId d1 d2 =
      (appointmentsInRange db salonId d1 d2).map (fun a => { a with status := f a }) := by
  simp only [appointmentsInRange, withStatuses, List.filter_map]
  rfl

theorem topServices_status_blind (db : Db) (f : Appointment → String)
    (salonId : String) (d1 d2 : Nat) :
    (getSalonMetrics (withStatuses db f) salonId d1 d2).topServices =
      (getSalonMetrics db salonId d1 d2).topServices := by
  rw [getSalonMetrics_topServices, getSalonMetrics_topServices,
    appointmentsInRange_withStatuses]
  show topServicesOf (db.services.filter (fun s => s.salonId == salonId)) _ =
    topServicesOf (db.services.filter (fun s => s.salonId == salonId)) _
  simp only [topServicesOf]
  congr 2
  simp only [serviceCount, List.foldl_map]

/-- Claim C10: topServices is status-blind (reassigning every status,
cancelled and no-show included, leaves it unchanged), has at most five
entries, is sorted by weakly descending count, and each listed entry
carries the number of occurrences, over the service-id lists of every
ranged appointment, of ids whose current catalog name is the entry name. -/
theorem C10_top_services :
    ∀ (db : Db) (salonId : String) (d1 d2 : Nat),
      (∀ f : Appointment → String,
        (getSalonMetrics (withStatuses db f) salonId d1 d2).topServices =
          (getSalonMetrics db salonId d1 d2).topServices) ∧
      (getSalonMetrics db salonId d1 d2).topServices.length ≤ 5 ∧
      List.Pairwise (fun a b : String × Nat => b.2 ≤ a.2)
        (getSalonMetrics db salonId d1 d2).topServices ∧
      ∀ p ∈ (getSalonMetrics db salonId d1 d2).topServices,
        p.2 = (((appointmentsInRange db salonId d1 d2).flatMap
          (fun a => a.serviceIds)).map
          (serviceNameOf (db.services.filter (fun s => s.salonId == salonId)))).count
          p.1 := by
  intro db salonId d1 d2
  refine ⟨fun f => topServices_status_blind db f salonId d1 d2, ?_, ?_, ?_⟩
  · rw [getSalonMetrics_topServices]
    exact topServicesOf_length _ _
  · rw [getSalonMetrics_topServices]
    exact topServicesOf_sorted _ _
  · rw [getSalonMetrics_topServices]
    exact topServicesOf_counts _ _

/-- Claim C10, witness: in the histogram scenario the entry for Cut is
listed with count 3, matching its occurrences across completed,
cancelled and no-show appointments alike. -/
theorem C10_top_services_witness :
    ("Cut", 3) ∈ (getSalonMetrics histDb "s" 0 1000).topServices ∧
    (("Cut", 3) : String × Nat).2 =
      (((appointmentsInRange histDb "s" 0 1000).flatMap
        (fun a => a.serviceIds)).map
        (serviceNameOf (histDb.services.filter (fun s => s.salonId == "s")))).count
        (("Cut", 3) : String × Nat).1 :=
  ⟨by decide, (C10_top_services histDb "s" 0 1000).2.2.2 ("Cut", 3) (by decide)⟩

end HaircutPilot
